import Mathlib

/-!
Shallow embedding of the FishnetUserSystem identity core
(`app/services/auth_service.py`, `app/services/rbac_service.py`,
`app/crud/auth.py`, `app/crud/rbac.py`, `app/auth/authenticators.py`,
`app/auth/permissions.py`, `app/core/cache.py`).

The backing store (SQLAlchemy tables) is modelled as explicit lists of
records inside a `Store`; every stateful operation takes and returns a
`Store`.  The clock is an explicit `now : Int` standing for
`utc_now()` / `datetime.utcnow()`.  Redis (`CacheManager`) is modelled
as a list of keyed entries with an absolute expiry instant.
-/

namespace Fishnet

/-- Model of `app/models/user.py` `User`: only the fields the core reads. -/
structure User where
  id : Nat
  isActive : Bool
  isSuperuser : Bool
deriving DecidableEq

/-- Model of `app/models/auth.py` `UserSession`. -/
structure UserSession where
  id : Nat
  userId : Nat
  sessionToken : String
  refreshToken : String
  expiresAt : Int
  isActive : Bool
  lastAccessedAt : Option Int
deriving DecidableEq

/-- Model of `app/models/auth.py` `AuthCode`. -/
structure AuthCode where
  id : Nat
  code : String
  userId : Nat
  project : String
  redirectUri : String
  expiresAt : Int
  isUsed : Bool
  usedAt : Option Int
deriving DecidableEq

/-- Model of `app/models/rbac.py` `Project`. -/
structure Project where
  id : Nat
  code : String
deriving DecidableEq

/-- Model of `app/models/rbac.py` `Role`. -/
structure Role where
  id : Nat
  code : String
deriving DecidableEq

/-- Model of `app/models/rbac.py` `UserRole` (role assignment). -/
structure UserRole where
  id : Nat
  userId : Nat
  roleId : Nat
  projectId : Option Nat
  isActive : Bool
  expiresAt : Option Int
deriving DecidableEq

/-- Model of `app/models/rbac.py` `Permission`. -/
structure Permission where
  id : Nat
  code : String
deriving DecidableEq

/-- Model of `app/models/rbac.py` `RolePermission` link row. -/
structure RolePermission where
  roleId : Nat
  permissionId : Nat
deriving DecidableEq

/-- One Redis entry as used by `app/core/cache.py` `CacheManager`:
a key, the pickled list value, and the absolute instant at which the
Redis TTL elapses. -/
structure CacheEntry where
  key : String
  value : List String
  expiresAt : Int
deriving DecidableEq

/-- The whole backing store plus the Redis cache. -/
structure Store where
  users : List User
  sessions : List UserSession
  authCodes : List AuthCode
  projects : List Project
  roles : List Role
  userRoles : List UserRole
  permissions : List Permission
  rolePermissions : List RolePermission
  cache : List CacheEntry
deriving DecidableEq

/-- Model of `app/config.py`: `CACHE_PERMISSION_TTL: int = 1800`. -/
def CACHE_PERMISSION_TTL : Int := 1800

/-- Model of `app/config.py`: `JWT_ACCESS_TOKEN_EXPIRE_MINUTES: int = 30`. -/
def JWT_ACCESS_TOKEN_EXPIRE_MINUTES : Nat := 30

/-- Model of `CacheManager.get`: the value if the key exists and its TTL has not
elapsed, else `none` (Redis drops expired keys). -/
def cacheGet (s : Store) (now : Int) (key : String) : Option (List String) :=
  match s.cache.find? (fun e => e.key == key) with
  | some e => if now < e.expiresAt then some e.value else none
  | none => none

/-- Model of `CacheManager.set` with an explicit ttl: overwrite the key. -/
def cacheSet (s : Store) (now : Int) (key : String) (value : List String)
    (ttl : Int) : Store :=
  { s with cache := ⟨key, value, now + ttl⟩ :: s.cache.filter (fun e => e.key != key) }

/-- Model of `CacheManager.delete`. -/
def cacheDelete (s : Store) (key : String) : Store :=
  { s with cache := s.cache.filter (fun e => e.key != key) }

/-- Model of `CRUDBase.get` specialised to users (`user_crud.get`). -/
def userGet (s : Store) (uid : Nat) : Option User :=
  s.users.find? (fun u => u.id == uid)

/-- Model of `CRUDUserSession.get_by_token`: matches on the token AND
`is_active == True`. -/
def sessionGetByToken (s : Store) (tok : String) : Option UserSession :=
  s.sessions.find? (fun x => x.sessionToken == tok && x.isActive)

/-- Model of `CRUDUserSession.get_by_refresh_token`. -/
def sessionGetByRefreshToken (s : Store) (rt : String) : Option UserSession :=
  s.sessions.find? (fun x => x.refreshToken == rt && x.isActive)

/-- Model of `CRUDUserSession.deactivate`: `UPDATE user_sessions SET is_active=false
WHERE id = session_id`. -/
def sessionDeactivate (s : Store) (sid : Nat) : Store :=
  { s with sessions := s.sessions.map (fun x =>
      if x.id == sid then { x with isActive := false } else x) }

/-- Model of `CRUDUserSession.update_last_accessed`. -/
def sessionUpdateLastAccessed (s : Store) (sid : Nat) (now : Int) : Store :=
  { s with sessions := s.sessions.map (fun x =>
      if x.id == sid then { x with lastAccessedAt := some now } else x) }

/-- Model of `CRUDAuthCode.get_by_code`: plain select by code, no `is_used` filter. -/
def authCodeGetByCode (s : Store) (c : String) : Option AuthCode :=
  s.authCodes.find? (fun a => a.code == c)

/-- The row transformation performed by `CRUDAuthCode.mark_as_used`.
Note: the WHERE clause is `id == auth_code_id` only — it is NOT
conditioned on `is_used == False`, i.e. not a compare-and-set. -/
def markRow (acId : Nat) (now : Int) (a : AuthCode) : AuthCode :=
  if a.id == acId then { a with isUsed := true, usedAt := some now } else a

/-- Model of `CRUDAuthCode.mark_as_used`: unconditional UPDATE by id. -/
def markAsUsed (s : Store) (acId : Nat) (now : Int) : Store :=
  { s with authCodes := s.authCodes.map (markRow acId now) }

/-- Model of `CRUDProject.get_by_code`. -/
def projectGetByCode (s : Store) (c : String) : Option Project :=
  s.projects.find? (fun p => p.code == c)

/-- Model of `CRUDUserRole.get_user_roles` with the default `active_only=True`:
conditions are `user_id == uid`, `is_active == True`, and — only when a
project id is passed (`if project_id:`) — `project_id == pid` by strict
equality (a NULL-scope row does not match). -/
def userRoleGetUserRoles (s : Store) (uid : Nat) (pid : Option Nat) :
    List UserRole :=
  s.userRoles.filter (fun ur =>
    ur.userId == uid
    && (match pid with
        | some p => ur.projectId == some p
        | none => true)
    && ur.isActive)

/-- Model of `CRUDPermission.get_role_permissions`: Permission join RolePermission
on the role id. -/
def permissionGetRolePermissions (s : Store) (rid : Nat) : List Permission :=
  (s.rolePermissions.filter (fun rp => rp.roleId == rid)).filterMap
    (fun rp => s.permissions.find? (fun p => p.id == rp.permissionId))

/-- Model of `CRUDRole.get_user_roles`: Role join UserRole with the same filters
as `CRUDUserRole.get_user_roles`. -/
def roleGetUserRoles (s : Store) (uid : Nat) (pid : Option Nat) : List Role :=
  (userRoleGetUserRoles s uid pid).filterMap
    (fun ur => s.roles.find? (fun r => r.id == ur.roleId))

/-- Model of `RBACService.get_user_permissions` cache key:
`f"user_permissions:{user_id}:{project_id or 'global'}"`. -/
def cacheKey (uid : Nat) (pid : Option Nat) : String :=
  "user_permissions:" ++ toString uid ++ ":"
    ++ (match pid with | some p => toString p | none => "global")

/-- The per-assignment filter inside `RBACService.get_user_permissions`:
skip if `not user_role.is_active`, skip if
`user_role.expires_at and user_role.expires_at < datetime.utcnow()`. -/
def userRoleActiveUnexpired (now : Int) (ur : UserRole) : Bool :=
  ur.isActive && !(match ur.expiresAt with
                   | some t => decide (t < now)
                   | none => false)

/-- The database recomputation path of `RBACService.get_user_permissions`
(lines 29-45): fetch assignments, drop inactive/expired ones, union the
permission codes of the surviving roles. -/
def computePermissions (s : Store) (now : Int) (uid : Nat) (pid : Option Nat) :
    List String :=
  ((userRoleGetUserRoles s uid pid).filter (userRoleActiveUnexpired now)).flatMap
    (fun ur => (permissionGetRolePermissions s ur.roleId).map (fun p => p.code))

/-- Model of `RBACService.get_user_permissions`: serve the cached list only when it
is truthy (`if cached_permissions:` — a cached empty list is falsy and
falls through to recomputation); on recomputation, write the result back
with `CACHE_PERMISSION_TTL`. -/
def get_user_permissions (s : Store) (now : Int) (uid : Nat) (pid : Option Nat) :
    List String × Store :=
  match cacheGet s now (cacheKey uid pid) with
  | some v =>
      if v.isEmpty then
        (computePermissions s now uid pid,
         cacheSet s now (cacheKey uid pid) (computePermissions s now uid pid)
           CACHE_PERMISSION_TTL)
      else (v, s)
  | none =>
      (computePermissions s now uid pid,
       cacheSet s now (cacheKey uid pid) (computePermissions s now uid pid)
         CACHE_PERMISSION_TTL)

/-- Model of `RBACService.check_permission`: membership of the code in
`get_user_permissions` — there is no superuser branch here. -/
def check_permission (s : Store) (now : Int) (uid : Nat) (code : String)
    (pid : Option Nat) : Bool × Store :=
  let r := get_user_permissions s now uid pid
  (r.1.contains code, r.2)

/-- Model of `RBACService.check_user_project_access`: superuser short-circuits to
`True`; otherwise resolve the project by code and look for at least one
active, unexpired assignment scoped to it (read-only). -/
def check_user_project_access (s : Store) (now : Int) (uid : Nat)
    (projectCode : String) : Bool :=
  let isSuper := match userGet s uid with
    | some u => u.isSuperuser
    | none => false
  if isSuper then true
  else
    match projectGetByCode s projectCode with
    | none => false
    | some proj =>
        let activeRoles := (userRoleGetUserRoles s uid (some proj.id)).filter
          (fun r => r.isActive && (match r.expiresAt with
                                   | none => true
                                   | some t => decide (now < t)))
        !activeRoles.isEmpty

/-- Outcome of the `require_permission` decorator wrapper in
`app/auth/permissions.py`. -/
inductive GuardResult where
  | unauthenticated
  | forbidden (perm : String)
  | allowed
deriving DecidableEq

/-- The permission loop of `require_permission`: check each code in turn,
fail on the first missing one. -/
def checkPermsList (s : Store) (now : Int) (uid : Nat) (perms : List String)
    (pid : Option Nat) : GuardResult × Store :=
  match perms with
  | [] => (GuardResult.allowed, s)
  | p :: rest =>
      let r := check_permission s now uid p pid
      if r.1 then checkPermsList r.2 now uid rest pid
      else (GuardResult.forbidden p, r.2)

/-- Model of `require_permission` wrapper body: 401 without a user; superusers skip
the RBAC check entirely (`if current_user.is_superuser: return await
func(...)`); otherwise check every required permission. -/
def require_permission_check (s : Store) (now : Int) (user : Option User)
    (perms : List String) (pid : Option Nat) : GuardResult × Store :=
  match user with
  | none => (GuardResult.unauthenticated, s)
  | some u =>
      if u.isSuperuser then (GuardResult.allowed, s)
      else checkPermsList s now u.id perms pid

/-- Python runtime error raised by a failed attribute lookup. -/
inductive PyErr where
  | attributeError (attr : String)
deriving DecidableEq

/-- The attributes that `CRUDUserRole` actually defines
(`app/crud/rbac.py` lines 131-216) plus those inherited from `CRUDBase`
(`app/crud/base.py`). -/
def crudUserRoleMethods : List String :=
  ["get_user_roles", "assign_role_to_user", "get_user_role_assignment",
   "get", "get_multi", "count", "create", "update", "remove"]

/-- Model of `RBACService.revoke_role_from_user`: its first statement is
`await user_role_crud.revoke_user_role(db, user_id, role_id, project_id)`.
Python resolves the attribute `revoke_user_role` before calling it; the
branch in which the attribute exists is dead, because neither
`CRUDUserRole` nor `CRUDBase` defines it, so the call raises
`AttributeError` before any row update or cache delete can run.
(The subsequent `cache_manager.delete(cache_key)` on lines 103-106 is
therefore unreachable.) -/
def revoke_role_from_user (s : Store) (uid rid : Nat) (pid : Option Nat) :
    Except PyErr (Bool × Store) :=
  if "revoke_user_role" ∈ crudUserRoleMethods then
    Except.ok (false, s)
  else
    Except.error (PyErr.attributeError "revoke_user_role")

/-- An `HTTPException` as raised by `app/services/auth_service.py`:
status code plus the machine-readable `detail` string. -/
structure HTTPError where
  statusCode : Nat
  detail : String
deriving DecidableEq

/-- The claims of a signed token produced by
`SecurityUtils.create_jwt_token`; the signature itself is opaque, so a
token is modelled by its claim set. -/
structure JWTClaims where
  sub : Nat
  project : Option String
  typ : Option String
deriving DecidableEq

/-- The dict returned by a successful `AuthService.exchange_auth_code`. -/
structure SSOTokenResponse where
  accessToken : JWTClaims
  tokenType : String
  expiresIn : Nat
  userId : Nat
  isSuperuser : Bool
  permissions : List String
  roleIds : List Nat
  project : String
deriving DecidableEq

/-- The response of a successful `AuthService.refresh_token`: note the
refresh token is returned unchanged (not rotated). -/
structure RefreshResponse where
  accessToken : JWTClaims
  refreshToken : String
  sessionToken : String
deriving DecidableEq

/-- Model of `SessionAuthenticator.authenticate` (`app/auth/authenticators.py`
lines 26-46): empty token → `None`; look up an active session by token;
if `expires_at` has passed, deactivate it as a side effect and return
`None`; otherwise update `last_accessed_at` and resolve the user. -/
def session_authenticate (s : Store) (now : Int) (tok : String) :
    Option User × Store :=
  if tok == "" then (none, s)
  else
    match sessionGetByToken s tok with
    | none => (none, s)
    | some sess =>
        if !sess.isActive then (none, s)
        else if sess.expiresAt < now then (none, sessionDeactivate s sess.id)
        else
          let s1 := sessionUpdateLastAccessed s sess.id now
          (userGet s1 sess.userId, s1)

/-- Model of `AuthService.refresh_token` (lines 104-156): a missing or inactive
session yields 401 "Invalid refresh token"; an expired one is deactivated
and yields 401 "Refresh token expired"; a missing or disabled user yields
401 "User account is disabled"; on success a new access token is minted
for the same session while the presented refresh token is reused. -/
def refresh_token (s : Store) (now : Int) (rt : String) :
    Except HTTPError RefreshResponse × Store :=
  match sessionGetByRefreshToken s rt with
  | none => (Except.error ⟨401, "Invalid refresh token"⟩, s)
  | some sess =>
      if !sess.isActive then (Except.error ⟨401, "Invalid refresh token"⟩, s)
      else if sess.expiresAt < now then
        (Except.error ⟨401, "Refresh token expired"⟩, sessionDeactivate s sess.id)
      else
        match userGet s sess.userId with
        | none => (Except.error ⟨401, "User account is disabled"⟩, s)
        | some u =>
            if !u.isActive then
              (Except.error ⟨401, "User account is disabled"⟩, s)
            else
              (Except.ok ⟨⟨u.id, none, none⟩, rt, sess.sessionToken⟩, s)

/-- The read/validation phase of `AuthService.exchange_auth_code`
(lines 213-234), everything that happens before the write: look up the
code (missing and already-used collapse to the same 400), then the expiry
check, then the `(project, redirect_uri)` match check. -/
def exchange_validate (s : Store) (now : Int) (code project redirectUri : String) :
    Except HTTPError AuthCode :=
  match authCodeGetByCode s code with
  | none => Except.error ⟨400, "无效的授权码"⟩
  | some ac =>
      if ac.isUsed then Except.error ⟨400, "无效的授权码"⟩
      else if ac.expiresAt < now then Except.error ⟨400, "授权码已过期"⟩
      else if ac.project != project || ac.redirectUri != redirectUri then
        Except.error ⟨400, "授权码参数不匹配"⟩
      else Except.ok ac

/-- Resolution of the project code to its UUID inside
`AuthService.exchange_auth_code`: `project_obj.id if project_obj else None`. -/
def exchangeProjectId (s : Store) (project : String) : Option Nat :=
  (projectGetByCode s project).map (fun p => p.id)

/-- The write/completion phase of `AuthService.exchange_auth_code`
(lines 236-295), run on the snapshot `ac` obtained by the read phase:
mark the code used (unconditionally, by id), check the user, mint the
project-scoped token and attach the permission/role snapshot. -/
def exchange_finish (s : Store) (now : Int) (ac : AuthCode) (project : String) :
    Except HTTPError SSOTokenResponse × Store :=
  match userGet (markAsUsed s ac.id now) ac.userId with
  | none => (Except.error ⟨401, "用户账号已禁用"⟩, markAsUsed s ac.id now)
  | some u =>
      if !u.isActive then
        (Except.error ⟨401, "用户账号已禁用"⟩, markAsUsed s ac.id now)
      else
        (Except.ok
          { accessToken := ⟨u.id, some project, some "sso_access"⟩
            tokenType := "bearer"
            expiresIn := JWT_ACCESS_TOKEN_EXPIRE_MINUTES * 60
            userId := u.id
            isSuperuser := u.isSuperuser
            permissions := (get_user_permissions (markAsUsed s ac.id now) now u.id
              (exchangeProjectId (markAsUsed s ac.id now) project)).1
            roleIds := (roleGetUserRoles
              (get_user_permissions (markAsUsed s ac.id now) now u.id
                (exchangeProjectId (markAsUsed s ac.id now) project)).2 u.id
              (exchangeProjectId (markAsUsed s ac.id now) project)).map (fun x => x.id)
            project := project },
         (get_user_permissions (markAsUsed s ac.id now) now u.id
           (exchangeProjectId (markAsUsed s ac.id now) project)).2)

/-- Model of `AuthService.exchange_auth_code`: the sequential composition of the
read phase and the write phase.  A validation failure leaves the store
untouched. -/
def exchange_auth_code (s : Store) (now : Int) (code project redirectUri : String) :
    Except HTTPError SSOTokenResponse × Store :=
  match exchange_validate s now code project redirectUri with
  | Except.error e => (Except.error e, s)
  | Except.ok ac => exchange_finish s now ac project

end Fishnet

deriving instance DecidableEq for Except

namespace Fishnet

/-! Helper lemmas shared by several claims. -/

/-- Lemma: `markRow` never changes the `code` field of a row. -/
theorem markRow_code (i : Nat) (n : Int) (a : AuthCode) :
    (markRow i n a).code = a.code := by
  unfold markRow
  split <;> rfl

/-- Lemma: looking a code up after `mark_as_used` finds the same row,
transformed by `markRow`. -/
theorem find?_code_map_markRow (l : List AuthCode) (c : String) (i : Nat)
    (now : Int) :
    (l.map (markRow i now)).find? (fun a => a.code == c)
      = (l.find? (fun a => a.code == c)).map (markRow i now) := by
  have hp : ((fun a : AuthCode => a.code == c) ∘ markRow i now)
      = fun a : AuthCode => a.code == c := by
    funext a
    simp [Function.comp, markRow_code]
  rw [List.find?_map, hp]

/-- Lemma: `get_user_permissions` only ever touches the cache; the
authorization-code table is left unchanged. -/
theorem get_user_permissions_authCodes (s : Store) (now : Int) (uid : Nat)
    (pid : Option Nat) :
    ((get_user_permissions s now uid pid).2).authCodes = s.authCodes := by
  unfold get_user_permissions
  cases h : cacheGet s now (cacheKey uid pid) with
  | none => rfl
  | some v =>
      by_cases hv : v.isEmpty = true <;> simp [hv, cacheSet]

/-- Lemma: inversion of a successful `exchange_validate`: the code was
found, unused, unexpired, and the presented pair matched. -/
theorem exchange_validate_ok (s : Store) (now : Int) (c p r : String)
    (ac : AuthCode) (h : exchange_validate s now c p r = Except.ok ac) :
    authCodeGetByCode s c = some ac ∧ ac.isUsed = false
      ∧ ¬ (ac.expiresAt < now) ∧ ac.project = p ∧ ac.redirectUri = r := by
  unfold exchange_validate at h
  cases hfind : authCodeGetByCode s c with
  | none => rw [hfind] at h; exact Except.noConfusion h
  | some a =>
      simp only [hfind] at h
      split_ifs at h with h1 h2 h3
      injection h with heq
      subst heq
      simp only [Bool.or_eq_true, bne_iff_ne, not_or, not_not] at h3
      simp only [Bool.not_eq_true] at h1
      exact ⟨rfl, h1, h2, h3.1, h3.2⟩

/-- Lemma: whatever branch `exchange_finish` takes, its resulting
authorization-code table is the one produced by `mark_as_used`. -/
theorem exchange_finish_authCodes (s : Store) (now : Int) (ac : AuthCode)
    (p : String) :
    ((exchange_finish s now ac p).2).authCodes
      = (markAsUsed s ac.id now).authCodes := by
  unfold exchange_finish
  cases hu : userGet (markAsUsed s ac.id now) ac.userId with
  | none => rfl
  | some u =>
      by_cases ha : u.isActive = true <;>
        simp [hu, ha, get_user_permissions_authCodes]

/-- Lemma: presenting a code whose row is already marked used fails with
400 and leaves the store unchanged, whatever the time and parameters. -/
theorem exchange_used_code_error (s : Store) (now : Int) (c p r : String)
    (ac : AuthCode) (hfind : authCodeGetByCode s c = some ac)
    (hused : ac.isUsed = true) :
    exchange_auth_code s now c p r = (Except.error ⟨400, "无效的授权码"⟩, s) := by
  simp [exchange_auth_code, exchange_validate, hfind, hused]

/-! Claim C1. -/

/-- Store for the C1 race: one unused, unexpired code bound to
`("acme", "https://acme.example/cb")` for an active user. -/
def c1Store : Store :=
  { users := [⟨1, true, false⟩], sessions := [],
    authCodes := [⟨10, "RACECODE", 1, "acme", "https://acme.example/cb", 100, false, none⟩],
    projects := [⟨7, "acme"⟩], roles := [], userRoles := [],
    permissions := [], rolePermissions := [], cache := [] }

/-- The snapshot of the code row both racing attempts read. -/
def c1Code : AuthCode :=
  ⟨10, "RACECODE", 1, "acme", "https://acme.example/cb", 100, false, none⟩

/-- Claim C1 (code bug): consumption is NOT an atomic check-and-set.
`CRUDAuthCode.mark_as_used` is an unconditional `UPDATE ... WHERE id = x`
with no `is_used == False` condition, and `exchange_auth_code` performs a
separate read (`get_by_code` + checks, modelled by `exchange_validate`)
followed by that write (inside `exchange_finish`).  Under the interleaving
read-A, read-B, write-A(+finish), write-B(+finish) — legal, because each
`await` is a scheduling point — both attempts validate the same
`is_used = false` snapshot and both mint a token, violating at-most-once
exchange. -/
theorem auth_code_exchange_race_double_success :
    exchange_validate c1Store 50 "RACECODE" "acme" "https://acme.example/cb"
      = Except.ok c1Code
    ∧ (exchange_finish c1Store 50 c1Code "acme").1.isOk = true
    ∧ (exchange_finish (exchange_finish c1Store 50 c1Code "acme").2
        50 c1Code "acme").1.isOk = true := by
  exact ⟨rfl, rfl, rfl⟩

/-! Claim C2. -/

/-- Store with an already-used code whose TTL has not elapsed. -/
def c2UsedStore : Store :=
  { users := [⟨1, true, false⟩], sessions := [],
    authCodes := [⟨11, "USEDCODE", 1, "acme", "https://acme.example/cb", 100, true, some 1⟩],
    projects := [], roles := [], userRoles := [],
    permissions := [], rolePermissions := [], cache := [] }

/-- Store with a fresh (unused, unexpired) code for project `beta`. -/
def c2FreshStore : Store :=
  { users := [⟨2, true, false⟩], sessions := [],
    authCodes := [⟨12, "FRESH", 2, "beta", "https://beta.example/cb", 200, false, none⟩],
    projects := [⟨8, "beta"⟩], roles := [], userRoles := [],
    permissions := [], rolePermissions := [], cache := [] }

/-- Claim C2: a code whose `is_used` flag is true fails a (sequential)
exchange with a 400 bad-request error regardless of remaining TTL, and a
successful exchange marks the code used in the resulting store, so the
same code can never be exchanged a second time. -/
theorem used_code_exchange_fails_and_success_consumes
    (s : Store) (now : Int) (c p r : String) :
    (∀ ac, authCodeGetByCode s c = some ac → ac.isUsed = true →
        exchange_auth_code s now c p r = (Except.error ⟨400, "无效的授权码"⟩, s))
    ∧ ((exchange_auth_code s now c p r).1.isOk = true →
        ∃ ac, authCodeGetByCode (exchange_auth_code s now c p r).2 c = some ac
          ∧ ac.isUsed = true
          ∧ ∀ (now2 : Int) (p2 r2 : String),
              (exchange_auth_code (exchange_auth_code s now c p r).2 now2 c p2 r2).1
                = Except.error ⟨400, "无效的授权码"⟩) := by
  constructor
  · intro ac hfind hused
    exact exchange_used_code_error s now c p r ac hfind hused
  · intro hok
    cases hv : exchange_validate s now c p r with
    | error e =>
        exfalso
        have hx : exchange_auth_code s now c p r = (Except.error e, s) := by
          unfold exchange_auth_code
          rw [hv]
        rw [hx] at hok
        simp [Except.isOk, Except.toBool] at hok
    | ok ac0 =>
        have hx : exchange_auth_code s now c p r = exchange_finish s now ac0 p := by
          unfold exchange_auth_code
          rw [hv]
        rw [hx]
        obtain ⟨hfind, hunused, hexp, hproj, huri⟩ :=
          exchange_validate_ok s now c p r ac0 hv
        have hac : ((exchange_finish s now ac0 p).2).authCodes
            = s.authCodes.map (markRow ac0.id now) :=
          exchange_finish_authCodes s now ac0 p
        have hfind2 : authCodeGetByCode ((exchange_finish s now ac0 p).2) c
            = some (markRow ac0.id now ac0) := by
          unfold authCodeGetByCode at hfind ⊢
          rw [hac, find?_code_map_markRow, hfind]
          rfl
        have hused2 : (markRow ac0.id now ac0).isUsed = true := by
          simp [markRow]
        refine ⟨markRow ac0.id now ac0, hfind2, hused2, ?_⟩
        intro now2 p2 r2
        have h2 := exchange_used_code_error ((exchange_finish s now ac0 p).2)
          now2 c p2 r2 (markRow ac0.id now ac0) hfind2 hused2
        rw [h2]

/-- Claim C2 witness: instantiated on concrete stores — the used code is
rejected though 100 time units of TTL remain, and after a successful
exchange of a fresh code a re-exchange fails. -/
theorem used_code_exchange_fails_witness :
    exchange_auth_code c2UsedStore 0 "USEDCODE" "acme" "https://acme.example/cb"
      = (Except.error ⟨400, "无效的授权码"⟩, c2UsedStore)
    ∧ ∃ ac, authCodeGetByCode
          (exchange_auth_code c2FreshStore 50 "FRESH" "beta" "https://beta.example/cb").2
          "FRESH" = some ac
        ∧ ac.isUsed = true
        ∧ ∀ (now2 : Int) (p2 r2 : String),
            (exchange_auth_code
              (exchange_auth_code c2FreshStore 50 "FRESH" "beta" "https://beta.example/cb").2
              now2 "FRESH" p2 r2).1 = Except.error ⟨400, "无效的授权码"⟩ :=
  ⟨(used_code_exchange_fails_and_success_consumes c2UsedStore 0 "USEDCODE"
      "acme" "https://acme.example/cb").1
      ⟨11, "USEDCODE", 1, "acme", "https://acme.example/cb", 100, true, some 1⟩ rfl rfl,
   (used_code_exchange_fails_and_success_consumes c2FreshStore 50 "FRESH"
      "beta" "https://beta.example/cb").2 (by decide)⟩

/-! Claim C3. -/

/-- Lemma: every code in the recomputed permission list is contributed by
an assignment that survives the active/unexpired filter. -/
theorem mem_computePermissions (s : Store) (now : Int) (uid : Nat)
    (pid : Option Nat) (c : String) (hc : c ∈ computePermissions s now uid pid) :
    ∃ ur, ur ∈ userRoleGetUserRoles s uid pid
      ∧ userRoleActiveUnexpired now ur = true
      ∧ c ∈ (permissionGetRolePermissions s ur.roleId).map (fun q => q.code) := by
  unfold computePermissions at hc
  rw [List.mem_flatMap] at hc
  obtain ⟨ur, hur, hcmem⟩ := hc
  rw [List.mem_filter] at hur
  exact ⟨ur, hur.1, hur.2, hcmem⟩

/-- Store for C3: user 1 holds role 1 (granting `reports.view`) through a
global assignment that expires at time 10; the cache starts cold. -/
def c3Store : Store :=
  { users := [⟨1, true, false⟩], sessions := [], authCodes := [], projects := [],
    roles := [⟨1, "viewer"⟩], userRoles := [⟨1, 1, 1, none, true, some 10⟩],
    permissions := [⟨1, "reports.view"⟩], rolePermissions := [⟨1, 1⟩], cache := [] }

/-- The store after a permission query at time 5, i.e. with the cache
populated while the assignment was still unexpired. -/
def c3Warm : Store := (get_user_permissions c3Store 5 1 none).2

/-- Claim C3 counterexample: the cache was populated at time 5 (before the
assignment's expiry at 10); at time 20 the assignment is expired and a
fresh recomputation would yield nothing, yet the resolver still returns
`reports.view` because it serves the warm cache entry. -/
theorem warm_cache_serves_expired_assignment :
    (get_user_permissions c3Store 5 1 none).1 = ["reports.view"]
    ∧ (∀ ur ∈ c3Warm.userRoles, ur.expiresAt = some 10)
    ∧ ((10 : Int) < 20)
    ∧ computePermissions c3Warm 20 1 none = []
    ∧ "reports.view" ∈ (get_user_permissions c3Warm 20 1 none).1 := by
  decide

/-- Claim C3 (amended): whenever the cache misses, every permission the
resolver returns is granted by some assignment that is active and whose
`expires_at` is absent or not in the past — i.e. the recomputation path
excludes every permission granted solely by inactive or expired
assignments.  (With a warm cache populated before expiry the exclusion
does not hold until the entry's TTL elapses or the key is invalidated.) -/
theorem rbac_recompute_excludes_expired (s : Store) (now : Int) (uid : Nat)
    (pid : Option Nat)
    (hmiss : cacheGet s now (cacheKey uid pid) = none)
    (c : String) (hc : c ∈ (get_user_permissions s now uid pid).1) :
    ∃ ur, ur ∈ userRoleGetUserRoles s uid pid
      ∧ ur.isActive = true
      ∧ (∀ t, ur.expiresAt = some t → ¬ t < now)
      ∧ c ∈ (permissionGetRolePermissions s ur.roleId).map (fun q => q.code) := by
  have hc2 : c ∈ computePermissions s now uid pid := by
    unfold get_user_permissions at hc
    rw [hmiss] at hc
    exact hc
  obtain ⟨ur, h1, h2, h3⟩ := mem_computePermissions s now uid pid c hc2
  unfold userRoleActiveUnexpired at h2
  rw [Bool.and_eq_true] at h2
  refine ⟨ur, h1, h2.1, ?_, h3⟩
  intro t ht hlt
  have h4 := h2.2
  rw [ht] at h4
  simp [hlt] at h4

/-- Claim C3 witness: at time 5 on the cold store, the theorem applies
and exhibits the active, unexpired assignment behind `reports.view`. -/
theorem rbac_recompute_excludes_expired_witness :
    ∃ ur, ur ∈ userRoleGetUserRoles c3Store 1 none
      ∧ ur.isActive = true
      ∧ (∀ t, ur.expiresAt = some t → ¬ t < (5 : Int))
      ∧ "reports.view" ∈ (permissionGetRolePermissions c3Store ur.roleId).map
          (fun q => q.code) :=
  rbac_recompute_excludes_expired c3Store 5 1 none rfl "reports.view" (by decide)

/-! Claim C4. -/

/-- Claim C4 (code bug): every call to `RBACService.revoke_role_from_user`
raises `AttributeError` at its first statement, because it invokes
`user_role_crud.revoke_user_role`, an attribute defined neither on
`CRUDUserRole` nor on `CRUDBase`; the revocation and the cache
invalidation on the subsequent lines are unreachable, so no permission
query can ever observe a revocation made through this method. -/
theorem revoke_role_always_attribute_error (s : Store) (uid rid : Nat)
    (pid : Option Nat) :
    revoke_role_from_user s uid rid pid
      = Except.error (PyErr.attributeError "revoke_user_role") := by
  unfold revoke_role_from_user
  rw [if_neg (by decide)]

/-! Claim C5. -/

/-- Store for C5: user 1 holds role 1 (granting `x.view`) through a
NULL-scope (global) assignment; project 7 (`acme`) exists. -/
def c5Store : Store :=
  { users := [⟨1, true, false⟩], sessions := [], authCodes := [],
    projects := [⟨7, "acme"⟩], roles := [⟨1, "globalrole"⟩],
    userRoles := [⟨1, 1, 1, none, true, none⟩],
    permissions := [⟨1, "x.view"⟩], rolePermissions := [⟨1, 1⟩], cache := [] }

/-- Claim C5 counterexample: the only assignment is global (NULL scope),
yet the project-scoped query for project 7 returns the empty set; the
global query does return `x.view`.  The claim that a null-scope
assignment is included in every project-scoped query is false. -/
theorem global_assignment_invisible_in_project_query :
    (c5Store.userRoles.map (fun ur => ur.projectId)) = [none]
    ∧ (get_user_permissions c5Store 0 1 (some 7)).1 = []
    ∧ "x.view" ∈ (get_user_permissions c5Store 0 1 none).1 := by
  decide

/-- Claim C5 (amended): a project-scoped permission query (with a cold
cache) draws only on assignments whose `project_id` equals the queried
project — `CRUDUserRole.get_user_roles` filters by strict equality, so
NULL-scope (global) assignments are excluded from every project-scoped
query and contribute only to the global (no-project) query. -/
theorem project_query_only_project_scoped (s : Store) (now : Int)
    (uid p : Nat)
    (hmiss : cacheGet s now (cacheKey uid (some p)) = none)
    (c : String) (hc : c ∈ (get_user_permissions s now uid (some p)).1) :
    ∃ ur, ur ∈ s.userRoles ∧ ur.userId = uid ∧ ur.projectId = some p
      ∧ ur.isActive = true
      ∧ c ∈ (permissionGetRolePermissions s ur.roleId).map (fun q => q.code) := by
  have hc2 : c ∈ computePermissions s now uid (some p) := by
    unfold get_user_permissions at hc
    rw [hmiss] at hc
    exact hc
  obtain ⟨ur, h1, h2, h3⟩ := mem_computePermissions s now uid (some p) c hc2
  unfold userRoleGetUserRoles at h1
  rw [List.mem_filter] at h1
  obtain ⟨hmem, hcond⟩ := h1
  simp only [Bool.and_eq_true, beq_iff_eq] at hcond
  exact ⟨ur, hmem, hcond.1.1, hcond.1.2, hcond.2, h3⟩

/-- Store for the C5 witness: the same shape but with a project-scoped
assignment, which the project query does include. -/
def c5WStore : Store :=
  { users := [⟨1, true, false⟩], sessions := [], authCodes := [],
    projects := [⟨7, "acme"⟩], roles := [⟨1, "projrole"⟩],
    userRoles := [⟨2, 1, 1, some 7, true, none⟩],
    permissions := [⟨1, "y.view"⟩], rolePermissions := [⟨1, 1⟩], cache := [] }

/-- Claim C5 witness: the theorem applied to a concrete project-scoped
assignment. -/
theorem project_query_only_project_scoped_witness :
    ∃ ur, ur ∈ c5WStore.userRoles ∧ ur.userId = 1 ∧ ur.projectId = some 7
      ∧ ur.isActive = true
      ∧ "y.view" ∈ (permissionGetRolePermissions c5WStore ur.roleId).map
          (fun q => q.code) :=
  project_query_only_project_scoped c5WStore 0 1 7 rfl "y.view" (by decide)

/-! Claim C6. -/

/-- Claim C6: authenticating with the token of an active session whose
`expires_at` has passed returns no principal and, as a side effect of the
same attempt, deactivates the session; afterwards no attempt with that
token can ever authenticate again (the lookup requires `is_active`), and
none of those later attempts mutates the store further.  The uniqueness
hypothesis mirrors the unique index on `session_token`. -/
theorem expired_session_authenticate_deactivates
    (s : Store) (now : Int) (tok : String) (sess : UserSession)
    (htok : tok ≠ "")
    (hfind : sessionGetByToken s tok = some sess)
    (hexp : sess.expiresAt < now)
    (huniq : ∀ x ∈ s.sessions, x.sessionToken = tok → x.id = sess.id) :
    session_authenticate s now tok = (none, sessionDeactivate s sess.id)
    ∧ (∀ x ∈ (sessionDeactivate s sess.id).sessions,
        x.id = sess.id → x.isActive = false)
    ∧ (∀ now2 : Int,
        session_authenticate (sessionDeactivate s sess.id) now2 tok
          = (none, sessionDeactivate s sess.id)) := by
  have h0 : (tok == "") = false := beq_eq_false_iff_ne.mpr htok
  have hfind2 := hfind
  unfold sessionGetByToken at hfind2
  have hp := List.find?_some hfind2
  rw [Bool.and_eq_true] at hp
  have hA : sess.isActive = true := hp.2
  refine ⟨?_, ?_, ?_⟩
  · simp [session_authenticate, h0, hfind, hA, hexp]
  · intro x hx hid
    simp only [sessionDeactivate, List.mem_map] at hx
    obtain ⟨y, hy, hxy⟩ := hx
    by_cases hyid : y.id = sess.id
    · rw [← hxy]
      simp [hyid]
    · rw [← hxy] at hid
      rw [if_neg (by simp [hyid])] at hid
      exact absurd hid hyid
  · intro now2
    have hnone : sessionGetByToken (sessionDeactivate s sess.id) tok = none := by
      unfold sessionGetByToken
      rw [List.find?_eq_none]
      intro x hx
      simp only [sessionDeactivate, List.mem_map] at hx
      obtain ⟨y, hy, hxy⟩ := hx
      by_cases hyt : y.sessionToken = tok
      · have hyid : y.id = sess.id := huniq y hy hyt
        rw [← hxy]
        simp [hyid, hyt]
      · rw [← hxy]
        by_cases hyid : y.id = sess.id <;> simp [hyid, hyt]
    simp [session_authenticate, h0, hnone]

/-- Store for the C6 witness: one active session, expired at time 5,
probed at time 50. -/
def c6Store : Store :=
  { users := [⟨1, true, false⟩],
    sessions := [⟨2, 1, "sTOK", "srt", 5, true, none⟩],
    authCodes := [], projects := [], roles := [], userRoles := [],
    permissions := [], rolePermissions := [], cache := [] }

/-- Claim C6 witness: the theorem instantiated on the concrete expired
session. -/
theorem expired_session_authenticate_deactivates_witness :
    session_authenticate c6Store 50 "sTOK" = (none, sessionDeactivate c6Store 2)
    ∧ (∀ x ∈ (sessionDeactivate c6Store 2).sessions,
        x.id = 2 → x.isActive = false)
    ∧ (∀ now2 : Int,
        session_authenticate (sessionDeactivate c6Store 2) now2 "sTOK"
          = (none, sessionDeactivate c6Store 2)) :=
  expired_session_authenticate_deactivates c6Store 50 "sTOK"
    ⟨2, 1, "sTOK", "srt", 5, true, none⟩ (by decide) rfl (by decide) (by decide)

/-! Claim C7. -/

/-- Claim C7: presenting an unused, unexpired code with a `(project,
redirect_target)` pair that differs in either component from the pair
recorded at issuance is rejected with a 400 bad-request error, and the
store is unchanged — no token is minted and the code is not consumed. -/
theorem mismatched_exchange_rejected (s : Store) (now : Int)
    (c p r : String) (ac : AuthCode)
    (hfind : authCodeGetByCode s c = some ac)
    (hunused : ac.isUsed = false)
    (hunexpired : ¬ ac.expiresAt < now)
    (hmismatch : ac.project ≠ p ∨ ac.redirectUri ≠ r) :
    exchange_auth_code s now c p r
      = (Except.error ⟨400, "授权码参数不匹配"⟩, s) := by
  have hm : (ac.project != p || ac.redirectUri != r) = true := by
    cases hmismatch with
    | inl h => simp [bne_iff_ne, h]
    | inr h => simp [bne_iff_ne, h]
  simp [exchange_auth_code, exchange_validate, hfind, hunused, hunexpired, hm]

/-- Store for the C7 witness: a valid unused code bound to
`("acme", "https://acme.example/cb")`. -/
def c7Store : Store :=
  { users := [⟨1, true, false⟩], sessions := [],
    authCodes := [⟨13, "MCODE", 1, "acme", "https://acme.example/cb", 100, false, none⟩],
    projects := [⟨7, "acme"⟩], roles := [], userRoles := [],
    permissions := [], rolePermissions := [], cache := [] }

/-- Claim C7 witness: presenting the code for project `other` instead of
`acme` fails with the mismatch error and leaves the store unchanged. -/
theorem mismatched_exchange_rejected_witness :
    exchange_auth_code c7Store 10 "MCODE" "other" "https://acme.example/cb"
      = (Except.error ⟨400, "授权码参数不匹配"⟩, c7Store) :=
  mismatched_exchange_rejected c7Store 10 "MCODE" "other"
    "https://acme.example/cb"
    ⟨13, "MCODE", 1, "acme", "https://acme.example/cb", 100, false, none⟩
    rfl rfl (by decide) (Or.inl (by decide))

/-! Claim C8. -/

/-- Store for C8: user 9 is an active superuser with no role assignments
at all. -/
def c8Store : Store :=
  { users := [⟨9, true, true⟩], sessions := [], authCodes := [],
    projects := [⟨7, "acme"⟩], roles := [], userRoles := [],
    permissions := [], rolePermissions := [], cache := [] }

/-- Claim C8 counterexample: `RBACService.check_permission` has no
superuser branch — for the roleless superuser 9 it returns `false` for a
permission code, contradicting the claim that it returns true for every
code and scope. -/
theorem check_permission_no_superuser_shortcut :
    (c8Store.users.map (fun u => u.isSuperuser)) = [true]
    ∧ (check_permission c8Store 0 9 "acme.data.view" (some 7)).1 = false := by
  decide

/-- Claim C8 (amended): the superuser short-circuit lives in the
`require_permission` guard (which returns allowed without touching the
resolver or the cache) and in `check_user_project_access`; `check_permission`
itself is plain membership in the role-derived permission set and consults
role assignments even for superusers. -/
theorem superuser_shortcut_in_guard_not_resolver
    (s : Store) (now : Int) (u : User) (perms : List String)
    (pid : Option Nat) (uid : Nat) (projectCode : String)
    (hsuper : u.isSuperuser = true) :
    require_permission_check s now (some u) perms pid = (GuardResult.allowed, s)
    ∧ (userGet s uid = some u → check_user_project_access s now uid projectCode = true)
    ∧ (∀ code, (check_permission s now uid code pid).1
        = (get_user_permissions s now uid pid).1.contains code) := by
  refine ⟨?_, ?_, fun code => rfl⟩
  · simp [require_permission_check, hsuper]
  · intro h
    simp [check_user_project_access, h, hsuper]

/-- Claim C8 witness: on the concrete superuser store the guard allows and
project access is granted, even though `check_permission` said `false`. -/
theorem superuser_shortcut_in_guard_witness :
    require_permission_check c8Store 0 (some ⟨9, true, true⟩)
      ["acme.data.view"] (some 7) = (GuardResult.allowed, c8Store)
    ∧ check_user_project_access c8Store 0 9 "acme" = true :=
  ⟨(superuser_shortcut_in_guard_not_resolver c8Store 0 ⟨9, true, true⟩
      ["acme.data.view"] (some 7) 9 "acme" rfl).1,
   (superuser_shortcut_in_guard_not_resolver c8Store 0 ⟨9, true, true⟩
      ["acme.data.view"] (some 7) 9 "acme" rfl).2.1 rfl⟩

/-! Claim C9. -/

/-- Store for C9: an unused authorization code and an active session, both
expired at time 5 and probed at time 50. -/
def c9Store : Store :=
  { users := [⟨1, true, false⟩],
    sessions := [⟨1, 1, "st1", "rtEXP", 5, true, none⟩],
    authCodes := [⟨10, "EXPCODE", 1, "acme", "https://a.example/cb", 5, false, none⟩],
    projects := [], roles := [], userRoles := [],
    permissions := [], rolePermissions := [], cache := [] }

/-- Claim C9 counterexample: an expired code and a missing code both get
HTTP 400, and an expired refresh token and a missing one both get
HTTP 401 — but the machine-readable `detail` strings differ in each pair,
so an expired credential is distinguishable from a nonexistent one. -/
theorem expired_detail_differs_from_missing :
    (exchange_auth_code c9Store 50 "MISSING" "acme" "https://a.example/cb").1
      = Except.error ⟨400, "无效的授权码"⟩
    ∧ (exchange_auth_code c9Store 50 "EXPCODE" "acme" "https://a.example/cb").1
      = Except.error ⟨400, "授权码已过期"⟩
    ∧ (refresh_token c9Store 50 "missing").1
      = Except.error ⟨401, "Invalid refresh token"⟩
    ∧ (refresh_token c9Store 50 "rtEXP").1
      = Except.error ⟨401, "Refresh token expired"⟩
    ∧ "无效的授权码" ≠ "授权码已过期"
    ∧ "Invalid refresh token" ≠ "Refresh token expired" := by
  decide

/-- Claim C9 (amended): expired and nonexistent credentials always
receive the same HTTP status (400 for authorization codes, 401 for
refresh tokens; session authentication returns no principal in both
cases), but the machine-readable `detail` is "invalid" for a missing
credential and "expired" for an expired one, so callers can distinguish
the two by the detail string. -/
theorem expired_vs_missing_same_status_distinct_detail
    (s : Store) (now : Int) (c p r rt : String) :
    (authCodeGetByCode s c = none →
      (exchange_auth_code s now c p r).1 = Except.error ⟨400, "无效的授权码"⟩)
    ∧ (∀ ac, authCodeGetByCode s c = some ac → ac.isUsed = false →
        ac.expiresAt < now →
        (exchange_auth_code s now c p r).1 = Except.error ⟨400, "授权码已过期"⟩)
    ∧ (sessionGetByRefreshToken s rt = none →
        (refresh_token s now rt).1 = Except.error ⟨401, "Invalid refresh token"⟩)
    ∧ (∀ sess, sessionGetByRefreshToken s rt = some sess →
        sess.expiresAt < now →
        (refresh_token s now rt).1 = Except.error ⟨401, "Refresh token expired"⟩) := by
  refine ⟨?_, ?_, ?_, ?_⟩
  · intro h
    simp [exchange_auth_code, exchange_validate, h]
  · intro ac h h1 h2
    simp [exchange_auth_code, exchange_validate, h, h1, h2]
  · intro h
    simp [refresh_token, h]
  · intro sess h h2
    have h3 := h
    unfold sessionGetByRefreshToken at h3
    have hp := List.find?_some h3
    rw [Bool.and_eq_true] at hp
    simp [refresh_token, h, hp.2, h2]

/-- Claim C9 witness: the amended theorem instantiated on the concrete
store, discharging each hypothesis on a missing and on an expired
credential. -/
theorem expired_vs_missing_witness :
    (exchange_auth_code c9Store 50 "NONE" "acme" "https://a.example/cb").1
      = Except.error ⟨400, "无效的授权码"⟩
    ∧ (exchange_auth_code c9Store 50 "EXPCODE" "p2" "https://b.example/cb").1
      = Except.error ⟨400, "授权码已过期"⟩
    ∧ (refresh_token c9Store 50 "absent").1
      = Except.error ⟨401, "Invalid refresh token"⟩
    ∧ (refresh_token c9Store 50 "rtEXP").1
      = Except.error ⟨401, "Refresh token expired"⟩ :=
  ⟨(expired_vs_missing_same_status_distinct_detail c9Store 50 "NONE" "acme"
      "https://a.example/cb" "absent").1 rfl,
   (expired_vs_missing_same_status_distinct_detail c9Store 50 "EXPCODE" "p2"
      "https://b.example/cb" "absent").2.1
      ⟨10, "EXPCODE", 1, "acme", "https://a.example/cb", 5, false, none⟩
      rfl rfl (by decide),
   (expired_vs_missing_same_status_distinct_detail c9Store 50 "NONE" "acme"
      "https://a.example/cb" "absent").2.2.1 rfl,
   (expired_vs_missing_same_status_distinct_detail c9Store 50 "NONE" "acme"
      "https://a.example/cb" "rtEXP").2.2.2
      ⟨1, 1, "st1", "rtEXP", 5, true, none⟩ rfl (by decide)⟩

/-! Claim C10. -/

/-- Claim C10: when the cache holds the empty list for the key, the
truthiness test `if cached_permissions:` treats it as a miss, so
`get_user_permissions` recomputes from the store and rewrites the cache;
moreover when the computed set is empty, every subsequent query — at any
later time — recomputes from the store again, so a cached empty
permission set is never served and can never go stale. -/
theorem cached_empty_list_is_miss (s : Store) (now : Int) (uid : Nat)
    (pid : Option Nat)
    (hcached : cacheGet s now (cacheKey uid pid) = some []) :
    get_user_permissions s now uid pid
      = (computePermissions s now uid pid,
         cacheSet s now (cacheKey uid pid) (computePermissions s now uid pid)
           CACHE_PERMISSION_TTL)
    ∧ (computePermissions s now uid pid = [] →
        ∀ now2 : Int,
          (get_user_permissions (get_user_permissions s now uid pid).2 now2
            uid pid).1
            = computePermissions (get_user_permissions s now uid pid).2 now2
                uid pid) := by
  have h1 : get_user_permissions s now uid pid
      = (computePermissions s now uid pid,
         cacheSet s now (cacheKey uid pid) (computePermissions s now uid pid)
           CACHE_PERMISSION_TTL) := by
    unfold get_user_permissions
    rw [hcached]
    rfl
  refine ⟨h1, ?_⟩
  intro hempty now2
  rw [h1, hempty]
  show (get_user_permissions
      (cacheSet s now (cacheKey uid pid) [] CACHE_PERMISSION_TTL) now2 uid pid).1
    = computePermissions
        (cacheSet s now (cacheKey uid pid) [] CACHE_PERMISSION_TTL) now2 uid pid
  have hfind : (cacheSet s now (cacheKey uid pid) [] CACHE_PERMISSION_TTL).cache.find?
      (fun e => e.key == cacheKey uid pid)
      = some ⟨cacheKey uid pid, [], now + CACHE_PERMISSION_TTL⟩ := by
    unfold cacheSet
    exact List.find?_cons_of_pos _ (by simp)
  by_cases hlt : now2 < now + CACHE_PERMISSION_TTL
  · have hg : cacheGet (cacheSet s now (cacheKey uid pid) [] CACHE_PERMISSION_TTL)
        now2 (cacheKey uid pid) = some [] := by
      unfold cacheGet
      rw [hfind]
      simp [hlt]
    unfold get_user_permissions
    rw [hg]
    rfl
  · have hg : cacheGet (cacheSet s now (cacheKey uid pid) [] CACHE_PERMISSION_TTL)
        now2 (cacheKey uid pid) = none := by
      unfold cacheGet
      rw [hfind]
      simp [hlt]
    unfold get_user_permissions
    rw [hg]

/-- Store for the C10 witness: the cache already holds the empty list for
user 1's global key, with plenty of TTL left; the user has no roles, so
the computed set is empty too. -/
def c10Store : Store :=
  { users := [⟨1, true, false⟩], sessions := [], authCodes := [],
    projects := [], roles := [], userRoles := [], permissions := [],
    rolePermissions := [], cache := [⟨cacheKey 1 none, [], 1000⟩] }

/-- Claim C10 witness: the theorem instantiated on the concrete store,
including a second query at a later time that still recomputes. -/
theorem cached_empty_list_is_miss_witness :
    get_user_permissions c10Store 0 1 none
      = (computePermissions c10Store 0 1 none,
         cacheSet c10Store 0 (cacheKey 1 none) (computePermissions c10Store 0 1 none)
           CACHE_PERMISSION_TTL)
    ∧ (get_user_permissions (get_user_permissions c10Store 0 1 none).2 7 1 none).1
        = computePermissions (get_user_permissions c10Store 0 1 none).2 7 1 none :=
  ⟨(cached_empty_list_is_miss c10Store 0 1 none rfl).1,
   (cached_empty_list_is_miss c10Store 0 1 none rfl).2 rfl 7⟩

end Fishnet
